import Mathlib

/-!
Verification development for the jata live transit pipeline.

The TypeScript source is shallowly embedded: JavaScript numbers are modelled
as `Int` where the code only ever holds integers (unix seconds, stop
sequences, rounded metres) and as `ℚ` where genuine fractions occur
(coordinates, progress ratios, averages).  JavaScript `null`/`undefined`
fields become `Option`; JS truthiness tests (`if (x)`) are modelled
explicitly (`≠ 0` for numbers, `≠ ""` for strings, `isSome` for objects).
`Math.floor`/`Math.round` and the arithmetic are modelled exactly over
`ℚ`/`Int` (the idealisation of the JS double arithmetic, which is exact on
the integer-and-small-fraction values these code paths handle).

Rational arithmetic is written with `Rat.divInt`-based helpers `qadd`,
`qsub`, `qmul`, `qdiv` — provably equal to `+`, `-`, `*`, `/` on `ℚ`
(lemmas below) — so that every definition evaluates by kernel reduction
on concrete inputs.
-/

/-- Rational addition computed on numerator/denominator (equals `a + b`). -/
def qadd (a b : ℚ) : ℚ := Rat.divInt (a.num * b.den + b.num * a.den) (a.den * b.den)

/-- Rational subtraction computed on numerator/denominator (equals `a - b`). -/
def qsub (a b : ℚ) : ℚ := Rat.divInt (a.num * b.den - b.num * a.den) (a.den * b.den)

/-- Rational multiplication computed on numerator/denominator (equals `a * b`). -/
def qmul (a b : ℚ) : ℚ := Rat.divInt (a.num * b.num) (a.den * b.den)

/-- Rational division computed on numerator/denominator (equals `a / b`). -/
def qdiv (a b : ℚ) : ℚ := Rat.divInt (a.num * b.den) (a.den * b.num)

theorem qadd_eq (a b : ℚ) : qadd a b = a + b := by
  rw [qadd, Rat.divInt_eq_div]
  conv_rhs => rw [← Rat.num_div_den a, ← Rat.num_div_den b]
  have ha : ((a.den : ℚ)) ≠ 0 := Nat.cast_ne_zero.mpr a.den_nz
  have hb : ((b.den : ℚ)) ≠ 0 := Nat.cast_ne_zero.mpr b.den_nz
  field_simp

theorem qsub_eq (a b : ℚ) : qsub a b = a - b := by
  rw [qsub, Rat.divInt_eq_div]
  conv_rhs => rw [← Rat.num_div_den a, ← Rat.num_div_den b]
  have ha : ((a.den : ℚ)) ≠ 0 := Nat.cast_ne_zero.mpr a.den_nz
  have hb : ((b.den : ℚ)) ≠ 0 := Nat.cast_ne_zero.mpr b.den_nz
  field_simp
  ring

theorem qmul_eq (a b : ℚ) : qmul a b = a * b := by
  rw [qmul, Rat.divInt_eq_div]
  conv_rhs => rw [← Rat.num_div_den a, ← Rat.num_div_den b]
  have ha : ((a.den : ℚ)) ≠ 0 := Nat.cast_ne_zero.mpr a.den_nz
  have hb : ((b.den : ℚ)) ≠ 0 := Nat.cast_ne_zero.mpr b.den_nz
  field_simp

theorem qdiv_eq (a b : ℚ) : qdiv a b = a / b := by
  rcases eq_or_ne b 0 with hb0 | hb0
  · subst hb0
    simp [qdiv, Rat.divInt_eq_div]
  · rw [qdiv, Rat.divInt_eq_div]
    conv_rhs => rw [← Rat.num_div_den a, ← Rat.num_div_den b]
    have ha : ((a.den : ℚ)) ≠ 0 := Nat.cast_ne_zero.mpr a.den_nz
    have hb : ((b.den : ℚ)) ≠ 0 := Nat.cast_ne_zero.mpr b.den_nz
    have hbn : ((b.num : ℚ)) ≠ 0 := by
      exact_mod_cast fun h => hb0 (Rat.num_eq_zero.mp (by exact_mod_cast h))
    field_simp

/-- JavaScript `Math.round` on an exact rational: `⌊q + 1/2⌋`. -/
def jsRound (q : ℚ) : ℤ := ⌊qadd q (Rat.divInt 1 2)⌋

theorem jsRound_eq (q : ℚ) : jsRound q = ⌊q + 1/2⌋ := by
  rw [jsRound, qadd_eq, Rat.divInt_eq_div]
  norm_num

/-- ASCII whitespace test backing the embedding of JS `String.trim`. -/
def isSpaceChar (c : Char) : Bool :=
  c == ' ' || c == '\t' || c == '\n' || c == '\r'

/-- JS `String.prototype.trim` on the character list of a string. -/
def trimChars (l : List Char) : List Char :=
  ((l.dropWhile isSpaceChar).reverse.dropWhile isSpaceChar).reverse

/-- ASCII lower-casing of one character, as JS `toLowerCase` acts on the
ASCII destinations this app handles. -/
def lowerChar (c : Char) : Char :=
  if 'A' ≤ c && c ≤ 'Z' then Char.ofNat (c.toNat + 32) else c

/-- The `s.trim().toLowerCase()` normalised grouping key used by
`computePatterns`, as a character list. -/
def normKey (s : String) : List Char :=
  (trimChars s.data).map lowerChar

/-! ## Commute pattern detector (`src/src/utils/commutePatterns.ts`) -/

/-- One record of the append-only departure log
(`CommuteDeparture` in `commutePatterns.ts`). -/
structure CommuteDeparture where
  destination : String
  dayOfWeek : Int
  hour : Int
  minute : Int
  timestamp : Int
deriving DecidableEq, Repr

/-- A detected recurring commute
(`CommutePattern` in `commutePatterns.ts`). -/
structure CommutePattern where
  destination : String
  dayOfWeek : Int
  avgHour : Int
  avgMinute : Int
  occurrences : Nat
  lastUsed : Int
deriving DecidableEq, Repr

/-- Constant `MIN_OCCURRENCES` of `commutePatterns.ts`. -/
def MIN_OCCURRENCES : Nat := 3

/-- Constant `TIME_WINDOW_MINUTES` of `commutePatterns.ts`. -/
def TIME_WINDOW_MINUTES : Int := 45

/-- Minutes since midnight of a departure (`d.hour * 60 + d.minute`). -/
def minutesOf (d : CommuteDeparture) : Int := d.hour * 60 + d.minute

/-- Append `a` to the group keyed `k`, keeping first-seen key order —
the behaviour of the JS `Map` accumulation loops in `computePatterns`. -/
def insertGroup {κ α : Type} [DecidableEq κ] (k : κ) (a : α) :
    List (κ × List α) → List (κ × List α)
  | [] => [(k, [a])]
  | (k', l) :: rest =>
    if k' = k then (k', l ++ [a]) :: rest else (k', l) :: insertGroup k a rest

/-- Group a list by a key, preserving JS `Map` insertion order. -/
def groupByKey {κ α : Type} [DecidableEq κ] (key : α → κ) (l : List α) :
    List (κ × List α) :=
  l.foldl (fun acc a => insertGroup (key a) a acc) []

/-- One step of the sequential clustering loop in `clusterByTime`: compare
the next (sorted) departure to the last member of the current cluster;
within `TIME_WINDOW_MINUTES` extend it, otherwise close it and start anew. -/
def clusterStep (acc : List (List CommuteDeparture) × List CommuteDeparture)
    (d : CommuteDeparture) :
    List (List CommuteDeparture) × List CommuteDeparture :=
  match acc.2.getLast? with
  | none => (acc.1, [d])
  | some lastD =>
    if minutesOf d - minutesOf lastD ≤ TIME_WINDOW_MINUTES then
      (acc.1, acc.2 ++ [d])
    else
      (acc.1 ++ [acc.2], [d])

/-- Function `clusterByTime` of `commutePatterns.ts`: sort by minutes-since-midnight,
then single-pass sequential clustering with a 45-minute gap threshold. -/
def clusterByTime (departures : List CommuteDeparture) :
    List (List CommuteDeparture) :=
  match List.insertionSort (fun a b => minutesOf a ≤ minutesOf b) departures with
  | [] => []
  | d :: rest =>
    let acc := rest.foldl clusterStep ([], [d])
    acc.1 ++ [acc.2]

/-- JS `Math.max(...cluster.map(d => d.timestamp))` over a nonempty cluster. -/
def maxTimestamp : List CommuteDeparture → Int
  | [] => 0
  | d :: rest => rest.foldl (fun m x => max m x.timestamp) d.timestamp

/-- Mean minutes-since-midnight of a cluster: the
`cluster.reduce((sum, d) => sum + d.hour * 60 + d.minute, 0) / cluster.length`
quotient in `computePatterns`. -/
def avgMinutes (cluster : List CommuteDeparture) : ℚ :=
  qdiv ((cluster.foldl (fun s d => s + minutesOf d) 0 : ℤ) : ℚ)
    ((cluster.length : ℕ) : ℚ)

/-- JavaScript `avgMin % 60` for the nonnegative mean: `q - 60⌊q/60⌋`. -/
def jsMod60 (q : ℚ) : ℚ := qsub q (((60 * ⌊qdiv q 60⌋ : ℤ) : ℚ))

/-- The body of the innermost loop of `computePatterns`: a cluster becomes a
`CommutePattern` exactly when its size reaches `MIN_OCCURRENCES`;
`avgHour = Math.floor(avgMin / 60)`, `avgMinute = Math.round(avgMin % 60)`. -/
def patternOfCluster (day : Int) (cluster : List CommuteDeparture) :
    Option CommutePattern :=
  if MIN_OCCURRENCES ≤ cluster.length then
    some
      { destination := (cluster.head?.map (·.destination)).getD ""
        dayOfWeek := day
        avgHour := ⌊qdiv (avgMinutes cluster) 60⌋
        avgMinute := jsRound (jsMod60 (avgMinutes cluster))
        occurrences := cluster.length
        lastUsed := maxTimestamp cluster }
  else none

/-- Function `computePatterns` of `commutePatterns.ts`: group by normalised
destination, sub-group by day of week, cluster by time of day, and keep
clusters of size ≥ `MIN_OCCURRENCES` as patterns. -/
def computePatterns (departures : List CommuteDeparture) :
    List CommutePattern :=
  (groupByKey (fun d => normKey d.destination) departures).flatMap fun g =>
    (groupByKey (fun t => t.dayOfWeek) g.2).flatMap fun dg =>
      (clusterByTime dg.2).filterMap (patternOfCluster dg.1)

/-- The storage round-trip of `computePatterns`: the function reads only the
departure log and overwrites the stored pattern set wholesale, so the
previous stored patterns (second argument) never influence the result. -/
def computePatternsStore (departures : List CommuteDeparture)
    (_prevStored : List CommutePattern) : List CommutePattern :=
  computePatterns departures

/-! ## ETA correlation engine (`src/unnamed/part_002`, NearbyDeparturesService) -/

/-- An arrival (or departure) prediction for one stop:
`{ delay: number; time: number }` with `time` in unix seconds.  A missing
field collapses to `time = 0`, which the code treats as unknown (JS
truthiness on `su.arrival?.time`). -/
structure StopPredictionTime where
  delay : Int
  time : Int
deriving DecidableEq, Repr

/-- One `stopUpdates` element of a `TripPrediction`. -/
structure StopTimeUpdate where
  stopId : String
  stopSequence : Int
  arrival : Option StopPredictionTime
  departure : Option StopPredictionTime
deriving DecidableEq, Repr

/-- A trip-level prediction batch (`TripPrediction` in part_002). -/
structure TripPrediction where
  tripId : String
  stopUpdates : List StopTimeUpdate
deriving DecidableEq, Repr

/-- JS truthiness of `su.arrival?.time`: an arrival object is present and
its time is nonzero. -/
def arrivalTimeKnown (su : StopTimeUpdate) : Bool :=
  match su.arrival with
  | some a => a.time != 0
  | none => false

/-- The sort key `(a.arrival?.time || 0)` of strategy 2. -/
def arrivalTimeOrZero (su : StopTimeUpdate) : Int :=
  match su.arrival with
  | some a => a.time
  | none => 0

/-- JS `Math.max(0, Math.round((arrivalTime - nowSec) / 60))`. -/
def etaMinutesOf (arrivalTime nowSec : Int) : Int :=
  max 0 (jsRound (qdiv (((arrivalTime - nowSec : Int)) : ℚ) 60))

/-- Strategy 1 of `getRealtimeEta`: among the stop updates strictly after
the current stop sequence of the vehicle that have a known arrival time, take
the one with the smallest stop sequence. -/
def etaStrategyNext (trip : TripPrediction) (vss : Int) (nowSec : Int) :
    Option Int :=
  let nextStops := List.insertionSort
    (fun a b => a.stopSequence ≤ b.stopSequence)
    (trip.stopUpdates.filter fun su =>
      decide (vss < su.stopSequence) && arrivalTimeKnown su)
  match nextStops with
  | [] => none
  | su :: _ =>
    match su.arrival with
    | some a => some (etaMinutesOf a.time nowSec)
    | none => none

/-- Strategy 2 of `getRealtimeEta`: the first stop update anywhere in the
trip whose known arrival time is still in the future, ordered by arrival
time. -/
def etaStrategyFuture (trip : TripPrediction) (nowSec : Int) : Option Int :=
  let futureStops := List.insertionSort
    (fun a b => arrivalTimeOrZero a ≤ arrivalTimeOrZero b)
    (trip.stopUpdates.filter fun su =>
      arrivalTimeKnown su &&
        (match su.arrival with
         | some a => decide (nowSec < a.time)
         | none => false))
  match futureStops with
  | [] => none
  | su :: _ =>
    match su.arrival with
    | some a => some (etaMinutesOf a.time nowSec)
    | none => none

/-- Function `getRealtimeEta` of part_002: locate the trip of the vehicle
among the predictions, then try strategy 1 (next stop after the current
stop sequence of the vehicle), then strategy 2 (first future arrival),
else `null`. -/
def getRealtimeEta (vehicleTripId : Option String)
    (vehicleStopSequence : Option Int) (predictions : List TripPrediction)
    (nowSec : Int) : Option Int :=
  match vehicleTripId with
  | none => none
  | some tid =>
    if tid = "" then none
    else
      match predictions.find? (fun p => decide (p.tripId = tid)) with
      | none => none
      | some trip =>
        if trip.stopUpdates.length = 0 then none
        else
          let s1 :=
            match vehicleStopSequence with
            | none => none
            | some vss => etaStrategyNext trip vss nowSec
          match s1 with
          | some eta => some eta
          | none => etaStrategyFuture trip nowSec

/-- The `ROUTE_NAMES` display table of part_002. -/
def ROUTE_NAMES : List (String × String) :=
  [("1", "Line 1"), ("2", "Line 2"), ("3", "Line 3"), ("4", "Line 4"),
   ("29", "29 Dufferin"), ("32", "32 Eglinton West"), ("35", "35 Jane"),
   ("36", "36 Finch West"), ("39", "39 Finch East"), ("41", "41 Keele"),
   ("45", "45 Kipling"), ("52", "52 Lawrence West"), ("54", "54 Lawrence East"),
   ("60", "60 Steeles West"), ("63", "63 Ossington"), ("85", "85 Sheppard East"),
   ("95", "95 York Mills"), ("96", "96 Wilson"), ("501", "501 Queen"),
   ("503", "503 Kingston Rd"), ("504", "504 King"), ("505", "505 Dundas"),
   ("506", "506 Carlton"), ("509", "509 Harbourfront"), ("510", "510 Spadina"),
   ("511", "511 Bathurst"), ("512", "512 St Clair")]

/-- Lookup in `ROUTE_NAMES`, falling back to the `Route <id>` template. -/
def routeNameFor (rid : String) : String :=
  match ROUTE_NAMES.find? (fun p => decide (p.1 = rid)) with
  | some p => p.2
  | none => "Route " ++ rid

/-- One element of the relay `/api/nearby` JSON as consumed by
`fetchNearbyVehicles`. -/
structure RawNearbyVehicle where
  id : String
  routeId : String
  tripId : Option String
  latitude : ℚ
  longitude : ℚ
  bearing : Option ℚ
  speed : Option ℚ
  distanceMeters : Int
  currentStopSequence : Option Int
deriving DecidableEq, Repr

/-- The `NearbyVehicle` interface of part_002. -/
structure NearbyVehicle where
  id : String
  routeId : String
  routeName : String
  distanceMeters : Int
  bearing : Option ℚ
  speed : Option ℚ
  estimatedArrivalMins : Int
  isRealtime : Bool
  latitude : ℚ
  longitude : ℚ
deriving DecidableEq, Repr

/-- The per-vehicle map body of `fetchNearbyVehicles`: correlate the vehicle
with its trip prediction via `getRealtimeEta`; fall back to the distance
heuristic `Math.max(1, Math.round(distanceMeters / 300))` with
`isRealtime = false` when no real-time ETA exists.  (The HTTP fetching,
per-route deduplication and final sort of `fetchNearbyVehicles` surround
this body; the claim under verification is about this enrichment step.) -/
def enrichNearbyVehicle (v : RawNearbyVehicle)
    (predictions : List TripPrediction) (nowSec : Int) : NearbyVehicle :=
  let realtimeEta :=
    getRealtimeEta v.tripId v.currentStopSequence predictions nowSec
  { id := v.id
    routeId := v.routeId
    routeName := routeNameFor v.routeId
    distanceMeters := v.distanceMeters
    bearing := v.bearing
    speed := v.speed
    estimatedArrivalMins :=
      realtimeEta.getD (max 1 (jsRound (qdiv ((v.distanceMeters : Int) : ℚ) 300)))
    isRealtime := realtimeEta.isSome
    latitude := v.latitude
    longitude := v.longitude }

/-! ## Relay server (`src/backend/src/index.ts`) -/

/-- One `translation` entry of a GTFS-RT `TranslatedString`; a missing
`text` collapses to `""` (both are JS-falsy). -/
structure TranslationEntry where
  text : String
  language : Option String
deriving DecidableEq, Repr

/-- A GTFS-RT `TranslatedString` (missing `translation` collapses to `[]`). -/
structure TranslatedText where
  translation : List TranslationEntry
deriving DecidableEq, Repr

/-- A GTFS-RT informed entity: only its optional `routeId` is read. -/
structure InformedEntity where
  routeId : Option String
deriving DecidableEq, Repr

/-- A GTFS-RT alert active period (`start`/`end` unix seconds). -/
structure AlertPeriod where
  start : Option Int
  finish : Option Int
deriving DecidableEq, Repr

/-- The decoded GTFS-RT `alert` payload read by `/api/alerts`. -/
structure TtcAlert where
  headerText : Option TranslatedText
  descriptionText : Option TranslatedText
  informedEntity : List InformedEntity
  activePeriod : List AlertPeriod
  cause : Option Int
  effect : Option Int
deriving DecidableEq, Repr

/-- One cached feed entity of the alerts feed. -/
structure AlertEntity where
  id : String
  alert : Option TtcAlert
deriving DecidableEq, Repr

/-- JS truthiness of an optional string (`undefined` and `""` are falsy). -/
def jsTruthyStr : Option String → Bool
  | none => false
  | some s => s != ""

/-- JS `ts?.translation?.[0]?.text || ""`. -/
def firstTranslationText (ts : Option TranslatedText) : String :=
  match ts with
  | none => ""
  | some t =>
    match t.translation.head? with
    | some e => e.text
    | none => ""

/-- JS chain taking the text of the translation entry whose language tag
is en, else the empty string. -/
def enTranslationText (ts : Option TranslatedText) : String :=
  match ts with
  | none => ""
  | some t =>
    match t.translation.find? (fun e => decide (e.language = some "en")) with
    | some e => e.text
    | none => ""

/-- The `x?.translation?.[0]?.text || x?.translation?.find(en)?.text || dflt`
chain used for alert header and description text. -/
def extractAlertText (ts : Option TranslatedText) (dflt : String) : String :=
  let f := firstTranslationText ts
  if f ≠ "" then f
  else
    let e := enTranslationText ts
    if e ≠ "" then e else dflt

/-- The shaped alert object returned by `/api/alerts`. -/
structure AlertOut where
  id : String
  headerText : String
  descriptionText : String
  affectedRouteIds : List String
  activePeriod : List (Option Int × Option Int)
  cause : Option Int
  effect : Option Int
deriving DecidableEq, Repr

/-- The `alertsCache.map(...)` body of `/api/alerts` (entities without an
`alert` payload are dropped by the trailing `.filter(Boolean)`). -/
def mapAlertEntity (e : AlertEntity) : Option AlertOut :=
  match e.alert with
  | none => none
  | some a =>
    some
      { id := e.id
        headerText := extractAlertText a.headerText "Service Alert"
        descriptionText := extractAlertText a.descriptionText ""
        affectedRouteIds :=
          (a.informedEntity.filter fun ie => jsTruthyStr ie.routeId).filterMap
            (·.routeId)
        activePeriod := a.activePeriod.map fun p => (p.start, p.finish)
        cause := a.cause
        effect := a.effect }

/-- The relay `/api/alerts` endpoint: shape every cached alert entity, then,
when a non-empty `routes` query string is supplied, keep the alerts whose
affected-route set is empty (system-wide) or meets the comma-separated
filter list. -/
def apiAlerts (alertsCache : List AlertEntity) (routeFilter : Option String) :
    List AlertOut :=
  let alerts := alertsCache.filterMap mapAlertEntity
  match routeFilter with
  | some rf =>
    if rf = "" then alerts
    else
      let filterIds := rf.splitOn ","
      alerts.filter fun a =>
        decide (a.affectedRouteIds.length = 0) ||
          a.affectedRouteIds.any fun rid => filterIds.contains rid
  | none => alerts

/-- The client-side `ServiceAlert` interface of `TtcGtfsService.ts`. -/
structure ServiceAlert where
  id : String
  headerText : String
  descriptionText : String
  affectedRouteIds : List String
deriving DecidableEq, Repr

/-- The filtering core of `fetchServiceAlerts` in `TtcGtfsService.ts`,
applied to the alert list the relay returned (the HTTP fetch is abstracted
into the `alerts` argument): with an empty `routeIds` every alert is
returned, otherwise only alerts whose affected-route set meets `routeIds`. -/
def fetchServiceAlerts (routeIds : List String) (alerts : List ServiceAlert) :
    List ServiceAlert :=
  if routeIds.length = 0 then alerts
  else
    alerts.filter fun alert =>
      alert.affectedRouteIds.any fun rid => routeIds.contains rid

/-- A GTFS-RT vehicle position. -/
structure GtfsPosition where
  latitude : ℚ
  longitude : ℚ
  bearing : Option ℚ
  speed : Option ℚ
deriving DecidableEq, Repr

/-- A GTFS-RT trip descriptor. -/
structure GtfsTrip where
  routeId : Option String
  tripId : Option String
deriving DecidableEq, Repr

/-- A GTFS-RT vehicle payload as read by `/api/nearby`. -/
structure GtfsVehicle where
  position : Option GtfsPosition
  trip : Option GtfsTrip
  timestamp : Option Int
  currentStopSequence : Option Int
  currentStatus : Option Int
deriving DecidableEq, Repr

/-- One cached feed entity of the vehicle-positions feed. -/
structure GtfsVehicleEntity where
  id : String
  vehicle : Option GtfsVehicle
deriving DecidableEq, Repr

/-- One element of the `/api/nearby` response list. -/
structure NearbyOut where
  id : String
  routeId : String
  tripId : Option String
  latitude : ℚ
  longitude : ℚ
  bearing : Option ℚ
  speed : Option ℚ
  distanceMeters : Int
  timestamp : Option Int
  currentStopSequence : Option Int
  currentStatus : Option Int
deriving DecidableEq, Repr

/-- JS `v.trip?.routeId || Unknown` fallback. -/
def routeIdOrUnknown (t : Option GtfsTrip) : String :=
  match t with
  | some tr =>
    match tr.routeId with
    | some r => if r = "" then "Unknown" else r
    | none => "Unknown"
  | none => "Unknown"

/-- The per-entity body of the `/api/nearby` loop, parameterised by the
distance function (the source computes `haversineMeters`, a float
trigonometric formula; every claim proved below holds for an arbitrary
distance function, hence for haversine in particular).  Entities lacking a
vehicle or a truthy latitude/longitude are skipped; an entity within
`radius` is shaped with its rounded distance. -/
def nearbyItem (dist : ℚ → ℚ → ℚ → ℚ → ℚ) (lat lon radius : ℚ)
    (e : GtfsVehicleEntity) : Option NearbyOut :=
  match e.vehicle with
  | none => none
  | some v =>
    match v.position with
    | none => none
    | some p =>
      if p.latitude = 0 ∨ p.longitude = 0 then none
      else
        let d := dist lat lon p.latitude p.longitude
        if d ≤ radius then
          some
            { id := e.id
              routeId := routeIdOrUnknown v.trip
              tripId := v.trip.bind (·.tripId)
              latitude := p.latitude
              longitude := p.longitude
              bearing := p.bearing
              speed := p.speed
              distanceMeters := jsRound d
              timestamp := v.timestamp
              currentStopSequence := v.currentStopSequence
              currentStatus := v.currentStatus }
        else none

/-- Ascending order on rounded distance (`(a, b) => a.distanceMeters - b.distanceMeters`). -/
def distLE (a b : NearbyOut) : Prop := a.distanceMeters ≤ b.distanceMeters

instance : DecidableRel distLE := fun a b =>
  inferInstanceAs (Decidable (a.distanceMeters ≤ b.distanceMeters))

instance : IsTotal NearbyOut distLE := ⟨fun _ _ => Int.le_total _ _⟩

instance : IsTrans NearbyOut distLE := ⟨fun _ _ _ h1 h2 => le_trans h1 h2⟩

/-- The collected and sorted `nearby` array of `/api/nearby`. -/
def nearbyVehicles (dist : ℚ → ℚ → ℚ → ℚ → ℚ) (cache : List GtfsVehicleEntity)
    (lat lon radius : ℚ) : List NearbyOut :=
  List.insertionSort distLE (cache.filterMap (nearbyItem dist lat lon radius))

/-- JS `parseFloat(req.query.radius) || 800`: a missing or non-numeric radius
parses to `NaN` (modelled `none`) and `0` is JS-falsy, so both fall back to
the 800 m default. -/
def effectiveRadius (radiusP : Option ℚ) : ℚ :=
  match radiusP with
  | some r => if r = 0 then 800 else r
  | none => 800

/-- The `/api/nearby` HTTP response. -/
inductive NearbyResponse where
  | badRequest : NearbyResponse
  | ok : List NearbyOut → Nat → NearbyResponse
deriving DecidableEq, Repr

/-- The `/api/nearby` endpoint: `lat`/`lon` query parameters are modelled
post-`parseFloat` as `Option ℚ` (`none` = missing or non-numeric, i.e.
`NaN`); the response is 400 when either is `none`, otherwise the ten
nearest vehicles within the effective radius plus the total match count. -/
def apiNearby (dist : ℚ → ℚ → ℚ → ℚ → ℚ) (cache : List GtfsVehicleEntity)
    (latP lonP radiusP : Option ℚ) : NearbyResponse :=
  match latP, lonP with
  | some lat, some lon =>
    let all := nearbyVehicles dist cache lat lon (effectiveRadius radiusP)
    NearbyResponse.ok (all.take 10) all.length
  | _, _ => NearbyResponse.badRequest

/-- The mutable state of one polling loop of the relay (`vehicleCache` /
`lastVehicleFetch` / `isFetchingVehicles` and the two analogous triples for
alerts and trip updates — the three `update*Cache` functions are textually
identical up to the feed URL). -/
structure FeedState (α : Type) where
  cache : List α
  lastFetch : Option Int
  isFetching : Bool

/-- One tick of a polling loop (`updateVehicleCache` et al.): a no-op under
the single-flight guard; on a successful fetch-and-decode the snapshot and
timestamp are replaced; on any failure (timeout, transport, decode) the
`catch` block only logs — cache and timestamp keep their previous values,
and no error escapes the function. -/
def updateFeedCache {α : Type} (st : FeedState α)
    (result : Except String (List α)) (now : Int) : FeedState α :=
  if st.isFetching then st
  else
    match result with
    | Except.ok entities =>
      { cache := entities, lastFetch := some now, isFetching := false }
    | Except.error _ =>
      { st with isFetching := false }

/-- The per-feed `{count, lastFetch}` pair reported by `/api/health`. -/
def feedHealth {α : Type} (st : FeedState α) : Nat × Option Int :=
  (st.cache.length, st.lastFetch)

/-! ## Trip progress (`src/unnamed/part_005`, ActiveTransitScreen) -/

/-- The transit details of a route step (fields read by part_005). -/
structure TransitDetails where
  departureStop : String
  arrivalStop : String
  departureTimeValue : Option Int
  arrivalTimeValue : Option Int
  lineName : String
  numStops : Option Int
deriving DecidableEq, Repr

/-- A route step (`RouteStep`): walking or transit. -/
structure RouteStep where
  travelMode : String
  transitDetails : Option TransitDetails
deriving DecidableEq, Repr

/-- The loop-body test of `determineCurrentStep` at index `i`: the step is
TRANSIT, has a truthy `departureTimeValue`, and `now` has reached it. -/
def stepDeparted (now : ℚ) (steps : List RouteStep) (i : Nat) : Bool :=
  match steps[i]? with
  | none => false
  | some step =>
    step.travelMode == "TRANSIT" &&
      (match step.transitDetails with
       | some td =>
         match td.departureTimeValue with
         | some dep => dep != 0 && decide ((dep : ℚ) ≤ now)
         | none => false
       | none => false)

/-- The backward scan `for (let i = steps.length - 1; i >= 0; i--)`:
return the first index (from the top) satisfying `cond`, else 0. -/
def loopDown (cond : Nat → Bool) : Nat → Nat
  | 0 => 0
  | n + 1 => if cond n then n else loopDown cond n

/-- Function `determineCurrentStep` of part_005 (the two coordinate
arguments are unused by the source and dropped here): the highest step
index whose transit departure time has passed, defaulting to 0. -/
def determineCurrentStep (now : ℚ) (steps : List RouteStep) : Nat :=
  loopDown (stepDeparted now steps) steps.length

/-- The stops-remaining calculation of the location callback in part_005:
`progress = Math.max(0, Math.min(1, (now - departure) / (arrival - departure)))`,
`remaining = Math.max(0, numStops - Math.floor(progress * numStops))`. -/
def stopsRemaining (dep arr numStops : Int) (now : ℚ) : Int :=
  let totalDuration : Int := arr - dep
  let elapsed : ℚ := qsub now ((dep : Int) : ℚ)
  let progress : ℚ := max 0 (min 1 (qdiv elapsed ((totalDuration : Int) : ℚ)))
  max 0 (numStops - ⌊qmul progress ((numStops : Int) : ℚ)⌋)

/-! ## Helper lemmas -/

/-- The head of a sorted nonempty list is a member of the original list and
is `r`-below every member. -/
theorem head_insertionSort_min {α : Type} (r : α → α → Prop) [DecidableRel r]
    [IsTotal α r] [IsTrans α r] (l : List α) (x : α) (rest : List α)
    (h : List.insertionSort r l = x :: rest) :
    x ∈ l ∧ ∀ y ∈ l, r x y := by
  have hperm := List.perm_insertionSort r l
  have hsorted := List.sorted_insertionSort r l
  rw [h] at hperm hsorted
  constructor
  · exact hperm.mem_iff.mp (List.mem_cons_self x rest)
  · intro y hy
    rcases List.mem_cons.mp (hperm.mem_iff.mpr hy) with rfl | hy'
    · rcases IsTotal.total (r := r) y y with hr | hr <;> exact hr
    · exact List.rel_of_sorted_cons hsorted y hy'

/-- Helper: `loopDown` returns an index satisfying `cond`, maximal below `n`,
whenever one exists below `n`. -/
theorem loopDown_max (cond : Nat → Bool) (n : Nat)
    (hex : ∃ i, i < n ∧ cond i = true) :
    cond (loopDown cond n) = true ∧
      ∀ j, j < n → cond j = true → j ≤ loopDown cond n := by
  induction n with
  | zero => obtain ⟨i, hi, _⟩ := hex; omega
  | succ m ih =>
    by_cases hm : cond m = true
    · refine ⟨by simp [loopDown, hm], ?_⟩
      intro j hj _
      simp [loopDown, hm]
      omega
    · have hex' : ∃ i, i < m ∧ cond i = true := by
        obtain ⟨i, hi, hci⟩ := hex
        refine ⟨i, ?_, hci⟩
        rcases Nat.lt_succ_iff_lt_or_eq.mp hi with h | rfl
        · exact h
        · exact absurd hci hm
      obtain ⟨h1, h2⟩ := ih hex'
      refine ⟨by simpa [loopDown, hm] using h1, ?_⟩
      intro j hj hcj
      have hjm : j < m := by
        rcases Nat.lt_succ_iff_lt_or_eq.mp hj with h | rfl
        · exact h
        · exact absurd hcj hm
      simpa [loopDown, hm] using h2 j hjm hcj

/-- Helper: `loopDown` falls through to 0 when no index satisfies `cond`. -/
theorem loopDown_none (cond : Nat → Bool) (n : Nat)
    (hno : ∀ i, cond i = false) : loopDown cond n = 0 := by
  induction n with
  | zero => rfl
  | succ m ih => simp [loopDown, hno m, ih]

/-- Past the end of the step list the loop-body test is false. -/
theorem stepDeparted_of_le_length (now : ℚ) (steps : List RouteStep) (j : Nat)
    (hj : steps.length ≤ j) : stepDeparted now steps j = false := by
  simp [stepDeparted, List.getElem?_eq_none hj]

/-- Membership in `computePatterns` comes from some admitted cluster. -/
theorem mem_computePatterns {departures : List CommuteDeparture}
    {p : CommutePattern} (hp : p ∈ computePatterns departures) :
    ∃ day cluster, patternOfCluster day cluster = some p := by
  rw [computePatterns] at hp
  obtain ⟨g, -, hg⟩ := List.mem_flatMap.mp hp
  obtain ⟨dg, -, hdg⟩ := List.mem_flatMap.mp hg
  obtain ⟨cluster, -, hc⟩ := List.mem_filterMap.mp hdg
  exact ⟨dg.1, cluster, hc⟩

/-! ## Claims -/

/-- C4: for every feed, a failed poll (timeout, transport or decode error,
all reaching the `catch` block as `Except.error`) leaves the cached
snapshot and the `lastFetch` timestamp reported by `/api/health` exactly as
they were; `updateFeedCache` is total, so the error never propagates. -/
theorem poll_failure_preserves_snapshot :
    ∀ (α : Type) (st : FeedState α) (msg : String) (now : Int),
      (updateFeedCache st (Except.error msg) now).cache = st.cache ∧
      (updateFeedCache st (Except.error msg) now).lastFetch = st.lastFetch ∧
      feedHealth (updateFeedCache st (Except.error msg) now) = feedHealth st := by
  intro α st msg now
  unfold updateFeedCache feedHealth
  by_cases h : st.isFetching <;> simp [h]

/-- C8: pattern recomputation is deterministic and idempotent — the stored
pattern set is overwritten from the departure log alone, so recomputing
(with whatever was previously stored) yields the identical pattern list. -/
theorem computePatterns_idempotent :
    ∀ (departures : List CommuteDeparture) (s s₁ s₂ : List CommutePattern),
      computePatternsStore departures (computePatternsStore departures s) =
        computePatternsStore departures s ∧
      computePatternsStore departures s₁ = computePatternsStore departures s₂ := by
  intro departures s s₁ s₂
  exact ⟨rfl, rfl⟩

/-- C10: a `radius` query parameter that is absent or non-numeric (`none`,
i.e. `parseFloat` gave `NaN`) or that parses to `0` falls back to the 800 m
default, and the `/api/nearby` response is identical to an explicit
`radius=800` request. -/
theorem radius_zero_defaults_to_800 :
    ∀ (dist : ℚ → ℚ → ℚ → ℚ → ℚ) (cache : List GtfsVehicleEntity)
      (latP lonP : Option ℚ),
      effectiveRadius (some 0) = 800 ∧
      effectiveRadius none = 800 ∧
      apiNearby dist cache latP lonP (some 0) =
        apiNearby dist cache latP lonP (some 800) ∧
      apiNearby dist cache latP lonP (some 0) =
        apiNearby dist cache latP lonP none := by
  intro dist cache latP lonP
  have h0 : effectiveRadius (some 0) = 800 := by simp [effectiveRadius]
  have h8 : effectiveRadius (some 800) = 800 := by norm_num [effectiveRadius]
  have hn : effectiveRadius none = 800 := rfl
  refine ⟨h0, hn, ?_, ?_⟩ <;>
    cases latP <;> cases lonP <;> simp [apiNearby, h0, h8, hn]

/-- C6: with `departureTime < arrivalTime` and `numStops > 0`, the
stops-remaining value `max(0, numStops − ⌊clamp((now − dep)/(arr − dep), 0, 1) · numStops⌋)`
equals `numStops` at `now = departureTime` and `0` at every
`now ≥ arrivalTime`. -/
theorem stopsRemaining_boundaries :
    ∀ (dep arr numStops : Int), dep < arr → 0 < numStops →
      stopsRemaining dep arr numStops ((dep : ℤ) : ℚ) = numStops ∧
      ∀ now : ℚ, ((arr : ℤ) : ℚ) ≤ now →
        stopsRemaining dep arr numStops now = 0 := by
  intro dep arr numStops hlt hpos
  have htotal : (0 : ℚ) < ((arr - dep : ℤ) : ℚ) := by exact_mod_cast Int.sub_pos.mpr hlt
  constructor
  · unfold stopsRemaining
    simp only [qsub_eq, qdiv_eq, qmul_eq, sub_self, zero_div]
    have h2 : max (0 : ℚ) (min 1 0) = 0 := by norm_num
    rw [h2, zero_mul, Int.floor_zero, sub_zero]
    exact max_eq_right hpos.le
  · intro now hnow
    unfold stopsRemaining
    simp only [qsub_eq, qdiv_eq, qmul_eq]
    have helapsed : ((arr - dep : ℤ) : ℚ) ≤ now - ((dep : ℤ) : ℚ) := by
      push_cast
      linarith
    have hone : (1 : ℚ) ≤ (now - ((dep : ℤ) : ℚ)) / ((arr - dep : ℤ) : ℚ) :=
      (one_le_div htotal).mpr helapsed
    rw [min_eq_left hone, max_eq_right zero_le_one, one_mul, Int.floor_intCast,
      sub_self]
    exact max_eq_left le_rfl

/-- C6 witness: a concrete 100-second transit step with 10 stops yields 10
stops remaining at its departure time and 0 at its arrival time. -/
theorem stopsRemaining_boundaries_witness :
    stopsRemaining 0 100 10 ((0 : ℤ) : ℚ) = 10 ∧
      stopsRemaining 0 100 10 ((100 : ℤ) : ℚ) = 0 := by
  have h := stopsRemaining_boundaries 0 100 10 (by decide) (by decide)
  exact ⟨h.1, h.2 _ le_rfl⟩

/-- C2 (amended): the relay endpoint `/api/alerts` given a non-empty `routes`
filter always includes an alert whose affected-route set is empty, and with
an absent or empty filter returns every shaped cached alert; the client
`fetchServiceAlerts` returns every alert when `routeIds` is empty but, for a
non-empty `routeIds`, keeps exactly the alerts whose affected-route set
meets `routeIds` — so there an alert with an empty affected-route set is
always excluded. -/
theorem alerts_route_filtering :
    (∀ (cache : List AlertEntity) (rf : String), rf ≠ "" →
      ∀ a ∈ cache.filterMap mapAlertEntity, a.affectedRouteIds = [] →
        a ∈ apiAlerts cache (some rf)) ∧
    (∀ cache : List AlertEntity,
      apiAlerts cache none = cache.filterMap mapAlertEntity ∧
      apiAlerts cache (some "") = cache.filterMap mapAlertEntity) ∧
    (∀ alerts : List ServiceAlert, fetchServiceAlerts [] alerts = alerts) ∧
    (∀ (routeIds : List String) (alerts : List ServiceAlert) (a : ServiceAlert),
      routeIds ≠ [] →
        (a ∈ fetchServiceAlerts routeIds alerts ↔
          a ∈ alerts ∧
            (a.affectedRouteIds.any fun rid => routeIds.contains rid) = true)) ∧
    (∀ (routeIds : List String) (alerts : List ServiceAlert) (a : ServiceAlert),
      routeIds ≠ [] → a.affectedRouteIds = [] →
        a ∉ fetchServiceAlerts routeIds alerts) := by
  have hlen : ∀ (routeIds : List String), routeIds ≠ [] →
      ¬(routeIds.length = 0) := by
    intro routeIds hne h
    exact hne (List.length_eq_zero.mp h)
  refine ⟨?_, ?_, ?_, ?_, ?_⟩
  · intro cache rf hrf a ha hempty
    simp only [apiAlerts]
    rw [if_neg hrf]
    exact List.mem_filter.mpr ⟨ha, by simp [hempty]⟩
  · intro cache
    exact ⟨rfl, by simp [apiAlerts]⟩
  · intro alerts
    rfl
  · intro routeIds alerts a hne
    unfold fetchServiceAlerts
    rw [if_neg (hlen routeIds hne)]
    exact List.mem_filter
  · intro routeIds alerts a hne hempty hmem
    unfold fetchServiceAlerts at hmem
    rw [if_neg (hlen routeIds hne)] at hmem
    have h := (List.mem_filter.mp hmem).2
    rw [hempty] at h
    simp at h

/-- C2 counterexample: the claim as stated is false — the client function
`fetchServiceAlerts` with the non-empty filter `["504"]` drops an alert
whose affected-route set is empty instead of always including it. -/
theorem alerts_route_filtering_counterexample :
    (⟨"sys", "All lines delayed", "", []⟩ : ServiceAlert) ∉
      fetchServiceAlerts ["504"] [⟨"sys", "All lines delayed", "", []⟩] := by
  decide

/-- C2 witness: a concrete system-wide alert entity passes the relay
`routes=504` filter, and an empty client filter returns the cached list
unchanged. -/
theorem alerts_route_filtering_witness :
    (⟨"sys", "Service Alert", "", [], [], none, none⟩ : AlertOut) ∈
      apiAlerts [⟨"sys", some ⟨none, none, [], [], none, none⟩⟩] (some "504") ∧
    fetchServiceAlerts [] [(⟨"a1", "h", "d", ["504"]⟩ : ServiceAlert)] =
      [⟨"a1", "h", "d", ["504"]⟩] := by
  constructor
  · exact alerts_route_filtering.1
      [⟨"sys", some ⟨none, none, [], [], none, none⟩⟩] "504" (by decide) _
      (by decide) rfl
  · exact alerts_route_filtering.2.2.1 _

/-- C7: three Monday departures to the same destination at 8:05, 8:12 and
8:20 cluster into one pattern with `occurrences = 3`, `avgHour = 8`,
`avgMinute = 12`; a fourth Monday departure at 9:30 (gap 70 min > 45)
starts a new cluster (below threshold) and leaves the pattern unchanged. -/
theorem commute_clustering_example :
    computePatterns
        [⟨"Union Station", 1, 8, 5, 1000⟩, ⟨"Union Station", 1, 8, 12, 2000⟩,
         ⟨"Union Station", 1, 8, 20, 3000⟩] =
      [⟨"Union Station", 1, 8, 12, 3, 3000⟩] ∧
    computePatterns
        [⟨"Union Station", 1, 8, 5, 1000⟩, ⟨"Union Station", 1, 8, 12, 2000⟩,
         ⟨"Union Station", 1, 8, 20, 3000⟩, ⟨"Union Station", 1, 9, 30, 4000⟩] =
      [⟨"Union Station", 1, 8, 12, 3, 3000⟩] := by
  exact ⟨by decide, by decide⟩

/-- C9: every `CommutePattern` produced by `computePatterns` has
`occurrences` at least the detection threshold `MIN_OCCURRENCES = 3`
(clusters are admitted only at that size, and `occurrences` is the cluster
size). -/
theorem pattern_occurrences_ge_threshold :
    ∀ (departures : List CommuteDeparture) (p : CommutePattern),
      p ∈ computePatterns departures → MIN_OCCURRENCES ≤ p.occurrences := by
  intro departures p hp
  obtain ⟨day, cluster, hc⟩ := mem_computePatterns hp
  unfold patternOfCluster at hc
  split_ifs at hc with h
  cases hc
  exact h

/-- C9 witness: the concrete pattern detected from three Monday departures
has at least 3 occurrences. -/
theorem pattern_occurrences_ge_threshold_witness :
    MIN_OCCURRENCES ≤ (⟨"Union Station", 1, 8, 12, 3, 3000⟩ : CommutePattern).occurrences := by
  exact pattern_occurrences_ge_threshold
    [⟨"Union Station", 1, 8, 5, 1000⟩, ⟨"Union Station", 1, 8, 12, 2000⟩,
     ⟨"Union Station", 1, 8, 20, 3000⟩]
    ⟨"Union Station", 1, 8, 12, 3, 3000⟩ (by decide)

/-- C5: `determineCurrentStep` returns the highest index whose step is a
TRANSIT step with a (truthy) departure time that `now` has reached, and 0
when no transit step has departed yet. -/
theorem determineCurrentStep_is_max_departed :
    ∀ (now : ℚ) (steps : List RouteStep),
      ((∃ i, i < steps.length ∧ stepDeparted now steps i = true) →
        stepDeparted now steps (determineCurrentStep now steps) = true ∧
        ∀ j, stepDeparted now steps j = true →
          j ≤ determineCurrentStep now steps) ∧
      ((∀ i, stepDeparted now steps i = false) →
        determineCurrentStep now steps = 0) := by
  intro now steps
  constructor
  · intro hex
    obtain ⟨h1, h2⟩ := loopDown_max (stepDeparted now steps) steps.length hex
    refine ⟨h1, fun j hj => ?_⟩
    by_cases hjl : j < steps.length
    · exact h2 j hjl hj
    · rw [stepDeparted_of_le_length now steps j (Nat.le_of_not_lt hjl)] at hj
      cases hj
  · intro hno
    exact loopDown_none _ _ hno

/-- The three-transit-step itinerary of the C5 witness (departures at
100 s, 200 s, 300 s). -/
def c5Steps : List RouteStep :=
  [⟨"TRANSIT", some ⟨"Stop A", "Stop B", some 100, some 150, "Line 1", some 5⟩⟩,
   ⟨"TRANSIT", some ⟨"Stop B", "Stop C", some 200, some 250, "Line 2", some 5⟩⟩,
   ⟨"TRANSIT", some ⟨"Stop C", "Stop D", some 300, some 350, "Line 3", some 5⟩⟩]

/-- C5 witness: with `now = 250` strictly between the second and third
departures the active index is 1, and before the first departure it is 0. -/
theorem determineCurrentStep_is_max_departed_witness :
    stepDeparted 250 c5Steps (determineCurrentStep 250 c5Steps) = true ∧
    determineCurrentStep 250 c5Steps = 1 ∧
    determineCurrentStep 50 c5Steps = 0 := by
  refine ⟨((determineCurrentStep_is_max_departed 250 c5Steps).1
    ⟨1, by decide, by decide⟩).1, by decide, by decide⟩

instance : IsTotal StopTimeUpdate (fun a b => a.stopSequence ≤ b.stopSequence) :=
  ⟨fun _ _ => Int.le_total _ _⟩

instance : IsTrans StopTimeUpdate (fun a b => a.stopSequence ≤ b.stopSequence) :=
  ⟨fun _ _ _ => le_trans⟩

/-- Characterisation of `arrivalTimeKnown`. -/
theorem arrivalTimeKnown_iff (su : StopTimeUpdate) :
    arrivalTimeKnown su = true ↔ ∃ a, su.arrival = some a ∧ a.time ≠ 0 := by
  unfold arrivalTimeKnown
  cases h : su.arrival with
  | none => simp
  | some a => simp [h, bne_iff_ne]

/-- C1: per vehicle processed by the ETA correlation engine
(`getRealtimeEta` inside the `fetchNearbyVehicles` map body): when a
TripUpdate matching the (truthy) tripId of the vehicle exists, the vehicle
reports a current stop sequence, and some stop-time update strictly after
it has a known arrival time, the enriched vehicle carries
`estimatedArrivalMins = max(0, round((arrivalTime − now)/60))` for the
stop-time update with the smallest such stop sequence, with
`isRealtime = true`; when no matching TripUpdate exists the enriched
vehicle carries the distance heuristic
`max(1, round(distanceMeters/300))` with `isRealtime = false`. -/
theorem eta_correlation :
    (∀ (v : RawNearbyVehicle) (predictions : List TripPrediction)
       (nowSec : Int) (tid : String) (trip : TripPrediction) (s : Int),
      v.tripId = some tid → tid ≠ "" →
      predictions.find? (fun p => decide (p.tripId = tid)) = some trip →
      v.currentStopSequence = some s →
      (∃ su ∈ trip.stopUpdates,
          s < su.stopSequence ∧ arrivalTimeKnown su = true) →
      ∃ su ∈ trip.stopUpdates, ∃ a : StopPredictionTime,
        s < su.stopSequence ∧ su.arrival = some a ∧ a.time ≠ 0 ∧
        (∀ su' ∈ trip.stopUpdates,
            s < su'.stopSequence → arrivalTimeKnown su' = true →
            su.stopSequence ≤ su'.stopSequence) ∧
        (enrichNearbyVehicle v predictions nowSec).estimatedArrivalMins =
          max 0 (jsRound (qdiv (((a.time - nowSec : ℤ)) : ℚ) 60)) ∧
        (enrichNearbyVehicle v predictions nowSec).isRealtime = true) ∧
    (∀ (v : RawNearbyVehicle) (predictions : List TripPrediction)
       (nowSec : Int),
      (v.tripId = none ∨ v.tripId = some "" ∨
        (∃ tid, v.tripId = some tid ∧
          predictions.find? (fun p => decide (p.tripId = tid)) = none)) →
      (enrichNearbyVehicle v predictions nowSec).estimatedArrivalMins =
        max 1 (jsRound (qdiv ((v.distanceMeters : ℤ) : ℚ) 300)) ∧
      (enrichNearbyVehicle v predictions nowSec).isRealtime = false) := by
  constructor
  · intro v predictions nowSec tid trip s htrip htid hfind hseq hex
    obtain ⟨su₀, hsu₀mem, hsu₀gt, hsu₀known⟩ := hex
    have hsu₀L : su₀ ∈ trip.stopUpdates.filter
        (fun su => decide (s < su.stopSequence) && arrivalTimeKnown su) :=
      List.mem_filter.mpr ⟨hsu₀mem, by simp [hsu₀gt, hsu₀known]⟩
    cases h : List.insertionSort (fun a b => a.stopSequence ≤ b.stopSequence)
        (trip.stopUpdates.filter
          (fun su => decide (s < su.stopSequence) && arrivalTimeKnown su)) with
    | nil =>
      have := (List.perm_insertionSort
        (fun a b => a.stopSequence ≤ b.stopSequence)
        (trip.stopUpdates.filter
          (fun su => decide (s < su.stopSequence) && arrivalTimeKnown su)))
      rw [h] at this
      rw [← this.nil_eq] at hsu₀L
      cases hsu₀L
    | cons x rest =>
      obtain ⟨hxL, hxmin⟩ := head_insertionSort_min _ _ x rest h
      have hxfacts := List.mem_filter.mp hxL
      have hxgt : s < x.stopSequence := by
        have := hxfacts.2
        simp only [Bool.and_eq_true, decide_eq_true_eq] at this
        exact this.1
      have hxknown : arrivalTimeKnown x = true := by
        have := hxfacts.2
        simp only [Bool.and_eq_true] at this
        exact this.2
      obtain ⟨a, hxa, hane⟩ := (arrivalTimeKnown_iff x).mp hxknown
      have hstrat : etaStrategyNext trip s nowSec =
          some (etaMinutesOf a.time nowSec) := by
        simp only [etaStrategyNext]
        rw [h]
        simp [hxa]
      have hne0 : ¬(trip.stopUpdates.length = 0) := by
        intro hlen
        rw [List.length_eq_zero.mp hlen] at hsu₀mem
        cases hsu₀mem
      have hget : getRealtimeEta v.tripId v.currentStopSequence predictions
          nowSec = some (etaMinutesOf a.time nowSec) := by
        rw [htrip, hseq]
        simp only [getRealtimeEta]
        rw [if_neg htid, hfind]
        simp only
        rw [if_neg hne0, hstrat]
      refine ⟨x, hxfacts.1, a, hxgt, hxa, hane, ?_, ?_, ?_⟩
      · intro su' hmem' hgt' hknown'
        exact hxmin su' (List.mem_filter.mpr ⟨hmem', by simp [hgt', hknown']⟩)
      · simp only [enrichNearbyVehicle]
        rw [hget]
        rfl
      · simp only [enrichNearbyVehicle]
        rw [hget]
        rfl
  · intro v predictions nowSec hcase
    have hget : getRealtimeEta v.tripId v.currentStopSequence predictions
        nowSec = none := by
      rcases hcase with h | h | ⟨tid, htid, hfind⟩
      · rw [h]
        rfl
      · rw [h]
        simp [getRealtimeEta]
      · rw [htid]
        by_cases htid0 : tid = ""
        · simp [getRealtimeEta, htid0]
        · simp only [getRealtimeEta]
          rw [if_neg htid0, hfind]
    constructor
    · simp only [enrichNearbyVehicle]
      rw [hget]
      rfl
    · simp only [enrichNearbyVehicle]
      rw [hget]
      rfl

/-- C1 witness: a vehicle on trip `trip9` at stop sequence 3 with a
prediction at sequence 5 (arrival 1000, now 700) is real-time; a vehicle
whose trip has no prediction batch falls back to the distance heuristic
(600 m → 2 min). -/
theorem eta_correlation_witness :
    (enrichNearbyVehicle
        ⟨"veh1", "504", some "trip9", 10, 20, none, none, 600, some 3⟩
        [⟨"trip9", [⟨"st5", 5, some ⟨0, 1000⟩, none⟩, ⟨"st4", 4, none, none⟩]⟩]
        700).isRealtime = true ∧
    (enrichNearbyVehicle
        ⟨"veh2", "29", some "tripX", 10, 20, none, none, 600, some 3⟩
        [] 700).estimatedArrivalMins =
      max 1 (jsRound (qdiv ((600 : ℤ) : ℚ) 300)) ∧
    (enrichNearbyVehicle
        ⟨"veh2", "29", some "tripX", 10, 20, none, none, 600, some 3⟩
        [] 700).isRealtime = false := by
  obtain ⟨su, hmem, a, hgt, ha, hane, hmin, heta, hrt⟩ :=
    eta_correlation.1
      ⟨"veh1", "504", some "trip9", 10, 20, none, none, 600, some 3⟩
      [⟨"trip9", [⟨"st5", 5, some ⟨0, 1000⟩, none⟩, ⟨"st4", 4, none, none⟩]⟩]
      700 "trip9"
      ⟨"trip9", [⟨"st5", 5, some ⟨0, 1000⟩, none⟩, ⟨"st4", 4, none, none⟩]⟩
      3 rfl (by decide) (by decide) rfl
      ⟨⟨"st5", 5, some ⟨0, 1000⟩, none⟩, by decide, by decide, by decide⟩
  have hb :=
    eta_correlation.2
      ⟨"veh2", "29", some "tripX", 10, 20, none, none, 600, some 3⟩
      [] 700 (Or.inr (Or.inr ⟨"tripX", rfl, rfl⟩))
  exact ⟨hrt, hb.1, hb.2⟩

/-- A shaped `/api/nearby` element only arises from an entity with a
present vehicle, a present position with truthy coordinates, and a
distance within the radius. -/
theorem nearbyItem_some {dist : ℚ → ℚ → ℚ → ℚ → ℚ} {lat lon radius : ℚ}
    {e : GtfsVehicleEntity} {o : NearbyOut}
    (h : nearbyItem dist lat lon radius e = some o) :
    ∃ v p, e.vehicle = some v ∧ v.position = some p ∧
      ¬(p.latitude = 0 ∨ p.longitude = 0) ∧
      dist lat lon p.latitude p.longitude ≤ radius := by
  rcases e with ⟨eid, veh⟩
  cases veh with
  | none => simp [nearbyItem] at h
  | some v =>
    rcases v with ⟨pos, trip, ts, css, cst⟩
    cases pos with
    | none => simp [nearbyItem] at h
    | some p =>
      refine ⟨_, p, rfl, rfl, ?_⟩
      simp only [nearbyItem] at h
      split_ifs at h with h0 hd
      exact ⟨h0, hd⟩

/-- C3: for every distance function (in the source, haversine with Earth
radius 6,371,000 m), cached vehicle snapshot, query point and radius, the
`/api/nearby` endpoint answers 400 exactly when `lat` or `lon` is missing
or non-numeric; otherwise every returned element arises from a cached
entity with a present, truthy-coordinate position whose distance from the
query point is ≤ the effective radius (positionless vehicles are skipped,
never errored), and the list is sorted ascending by (rounded) distance and
truncated to at most 10 elements. -/
theorem nearby_query_correct :
    ∀ (dist : ℚ → ℚ → ℚ → ℚ → ℚ) (cache : List GtfsVehicleEntity)
      (latP lonP radiusP : Option ℚ),
      (apiNearby dist cache latP lonP radiusP = NearbyResponse.badRequest ↔
        latP = none ∨ lonP = none) ∧
      (∀ (lat lon : ℚ), latP = some lat → lonP = some lon →
        ∀ (out : List NearbyOut) (total : Nat),
          apiNearby dist cache latP lonP radiusP =
              NearbyResponse.ok out total →
          (∀ o ∈ out, ∃ e ∈ cache, ∃ v p,
              e.vehicle = some v ∧ v.position = some p ∧
              ¬(p.latitude = 0 ∨ p.longitude = 0) ∧
              dist lat lon p.latitude p.longitude ≤ effectiveRadius radiusP ∧
              nearbyItem dist lat lon (effectiveRadius radiusP) e = some o) ∧
          List.Sorted distLE out ∧ out.length ≤ 10) := by
  intro dist cache latP lonP radiusP
  constructor
  · cases latP <;> cases lonP <;> simp [apiNearby]
  · intro lat lon hlat hlon out total hok
    subst hlat
    subst hlon
    simp only [apiNearby, NearbyResponse.ok.injEq] at hok
    obtain ⟨hout, -⟩ := hok
    refine ⟨?_, ?_, ?_⟩
    · intro o ho
      rw [← hout] at ho
      have ho2 : o ∈ nearbyVehicles dist cache lat lon
          (effectiveRadius radiusP) := List.mem_of_mem_take ho
      unfold nearbyVehicles at ho2
      have ho3 : o ∈ cache.filterMap
          (nearbyItem dist lat lon (effectiveRadius radiusP)) :=
        (List.perm_insertionSort distLE _).mem_iff.mp ho2
      obtain ⟨e, he, hitem⟩ := List.mem_filterMap.mp ho3
      obtain ⟨v, p, hv, hp, h0, hd⟩ := nearbyItem_some hitem
      exact ⟨e, he, v, p, hv, hp, h0, hd, hitem⟩
    · rw [← hout]
      exact List.Pairwise.sublist (List.take_sublist 10 _)
        (List.sorted_insertionSort distLE _)
    · rw [← hout]
      exact List.length_take_le 10 _

/-- The single-entity vehicle cache of the C3 witness. -/
def c3Cache : List GtfsVehicleEntity :=
  [⟨"v1", some ⟨some ⟨1, 1, none, none⟩, none, none, none, none⟩⟩]

/-- The shaped output the C3 witness expects for that entity. -/
def c3Out : NearbyOut :=
  ⟨"v1", "Unknown", none, 1, 1, none, none, 0, none, none, none⟩

/-- C3 witness: with the constant-zero distance function, a query point at
the origin and a defaulted radius, the single cached vehicle is returned,
it satisfies the distance bound, and the result is sorted with at most 10
elements. -/
theorem nearby_query_correct_witness :
    (∃ e ∈ c3Cache, ∃ v p,
        e.vehicle = some v ∧ v.position = some p ∧
        ¬(p.latitude = 0 ∨ p.longitude = 0) ∧
        (fun _ _ _ _ => (0 : ℚ)) 0 0 p.latitude p.longitude ≤
          effectiveRadius none ∧
        nearbyItem (fun _ _ _ _ => (0 : ℚ)) 0 0 (effectiveRadius none) e =
          some c3Out) ∧
    List.Sorted distLE [c3Out] ∧ ([c3Out] : List NearbyOut).length ≤ 10 := by
  have h := (nearby_query_correct (fun _ _ _ _ => (0 : ℚ)) c3Cache
      (some 0) (some 0) none).2 0 0 rfl rfl [c3Out] 1 (by decide)
  exact ⟨h.1 c3Out (by decide), h.2.1, h.2.2⟩
